import Mathlib

/-!
Verification of the learning-path progression subsystem of the
we-read-with-kids backend (src/api.py, src/models.py).

Shallow embedding notes:
* `LearningPath` and `PathActivity` mirror the SQLAlchemy models
  (src/models.py lines 222-281), restricted to the fields the
  progression subsystem reads or writes.  Timestamps (`created_at`,
  `last_updated`) are omitted: no claim mentions them and the tracker
  only touches `last_updated` together with `progress_percentage`.
* Persistence is modelled by a `DB` value holding one learning path and
  the global activity table; the tracker queries activities through
  `learning_path_id` filters exactly as the source does.
* Database-assigned primary keys are modelled as explicit parameters
  (the path id) and as positions 1..5 (the generated activity ids).
* Python computes the percentage as `int((completed / total) * 100)`
  in double-precision floats and truncates; this is modelled as the
  exact Nat floor division `completed * 100 / total`.  The two agree
  on every activity count this subsystem can produce: the generator
  always creates exactly 5 activities per path, and for total = 5 and
  completed in 0..5 the float result is exactly 0, 20, 40, 60, 80,
  100 (the first count pair where float truncation and exact floor
  differ is completed = 29, total = 50, far outside reachable states).
* The HTTP layer around `update_path_activity` is modelled by the
  returned status code: 404 when the activity id does not resolve,
  200 otherwise.  The ownership / authorization check is outside the
  subsystem (spec section 4.2) and is not modelled.
-/

/-- Child profile (src/models.py), restricted to the fields the
generator reads: id, name, age, reading_level. -/
structure ChildProfile where
  id : Nat
  name : String
  age : Nat
  reading_level : String
deriving Repr, DecidableEq

/-- LearningPath model (src/models.py lines 222-250), progression
fields only. -/
structure LearningPath where
  id : Nat
  child_profile_id : Nat
  title : String
  description : String
  current_stage : Nat
  total_stages : Nat
  progress_percentage : Nat
deriving Repr, DecidableEq

/-- PathActivity model (src/models.py lines 252-281). -/
structure PathActivity where
  id : Nat
  learning_path_id : Nat
  title : String
  description : String
  activity_type : String
  stage_number : Nat
  status : String
  is_completed : Bool
deriving Repr, DecidableEq

/-- The persisted state seen by the tracker: one learning path and the
activity table. -/
structure DB where
  path : LearningPath
  activities : List PathActivity
deriving Repr, DecidableEq

/-- `generate_learning_path` (src/api.py lines 592-654): builds the
path row and the fixed five-activity template.  `path_id` stands for
the persistence-assigned primary key obtained by `db.session.flush()`;
activity ids are the assigned keys, modelled as 1..5. -/
def generate_learning_path (path_id : Nat) (profile : ChildProfile) :
    LearningPath × List PathActivity :=
  let path : LearningPath :=
    { id := path_id
      child_profile_id := profile.id
      title := "Personalized Reading Journey for " ++ profile.name
      description := "A customized learning path designed for a " ++
        toString profile.age ++ "-year-old reader at " ++
        profile.reading_level ++ " level."
      current_stage := 1
      total_stages := 5
      progress_percentage := 0 }
  let mkActivity : Nat → String → String → String → Nat → PathActivity :=
    fun aid t d ty sn =>
      { id := aid
        learning_path_id := path_id
        title := t
        description := d
        activity_type := ty
        stage_number := sn
        status := "pending"
        is_completed := false }
  (path,
    [ mkActivity 1 "Reading Assessment"
        "Complete an initial reading assessment to identify your strengths and areas for improvement."
        "assessment" 1,
      mkActivity 2 "Vocabulary Building"
        "Practice with new words to expand your vocabulary."
        "exercise" 2,
      mkActivity 3 "Guided Reading"
        "Read a story with interactive guidance to help with comprehension."
        "reading" 3,
      mkActivity 4 "Comprehension Quiz"
        "Answer questions about the story to check your understanding."
        "quiz" 4,
      mkActivity 5 "Creative Response"
        "Create your own story or drawing inspired by what you read."
        "creative" 5 ])

/-- The DB state right after `generate_learning_path` committed. -/
def generatedDB (path_id : Nat) (profile : ChildProfile) : DB :=
  { path := (generate_learning_path path_id profile).1
    activities := (generate_learning_path path_id profile).2 }

/-- The per-activity mutation of `update_path_activity` (src/api.py
lines 500-505): `activity.status = data[status]`, and when the new
status is completed also `activity.is_completed = True`. -/
def apply_status (s : String) (a : PathActivity) : PathActivity :=
  if s == "completed" then { a with status := s, is_completed := true }
  else { a with status := s }

/-- The cascading path update of `update_path_activity` (src/api.py
lines 507-525), run only for a completed status: when the completed
activity sits at the frontier stage, advance `current_stage` (capped
at `total_stages`) and recompute `progress_percentage` from the
activity counts, guarded against a zero total.  `acts` is the activity
table after the activity mutation was flushed (SQLAlchemy autoflush
runs before the count queries). -/
def cascade (path : LearningPath) (acts : List PathActivity)
    (stage : Nat) : LearningPath :=
  if path.current_stage == stage then
    let path1 :=
      if path.current_stage < path.total_stages then
        { path with current_stage := path.current_stage + 1 }
      else path
    let completed_activities :=
      (acts.filter (fun a =>
        a.learning_path_id == path.id && a.is_completed)).length
    let total_activities :=
      (acts.filter (fun a => a.learning_path_id == path.id)).length
    if total_activities > 0 then
      { path1 with progress_percentage :=
          completed_activities * 100 / total_activities }
    else path1
  else path

/-- `update_path_activity` (src/api.py lines 484-531), after the
ownership check: resolve the activity (404 when absent), and when the
request body carries a status drawn from the valid set, apply it to
the activity and, for a completed status, run the cascade on the
owning path.  A missing or invalid status field mutates nothing and
still answers 200. -/
def update_path_activity (db : DB) (activity_id : Nat)
    (data : Option String) : DB × Nat :=
  match db.activities.find? (fun a => a.id == activity_id) with
  | none => (db, 404)
  | some activity =>
    match data with
    | none => (db, 200)
    | some s =>
      if (["pending", "in-progress", "completed"] : List String).contains s then
        if s == "completed" then
          ({ path := cascade db.path (db.activities.map (fun a =>
                if a.id == activity_id then apply_status s a else a))
              activity.stage_number,
             activities := db.activities.map (fun a =>
               if a.id == activity_id then apply_status s a else a) }, 200)
        else
          ({ db with activities := db.activities.map (fun a =>
              if a.id == activity_id then apply_status s a else a) }, 200)
      else (db, 200)

/-- Number of activities of the path marked completed (the first count
query of src/api.py lines 513-517). -/
def completedCount (db : DB) : Nat :=
  (db.activities.filter (fun a =>
    a.learning_path_id == db.path.id && a.is_completed)).length

/-- Number of activities of the path (the second count query of
src/api.py lines 519-521). -/
def totalCount (db : DB) : Nat :=
  (db.activities.filter (fun a => a.learning_path_id == db.path.id)).length

/-- Run a sequence of status-update requests against the store. -/
def runUpdates (db : DB) (ops : List (Nat × Option String)) : DB :=
  ops.foldl (fun d op => (update_path_activity d op.1 op.2).1) db

/-- C1: for every child profile, the generated path starts at stage 1
of 5 with zero progress, and carries exactly the five pending template
activities, stages 1-5, in the fixed hardcoded order of types and
titles. -/
theorem C1_generator_template (path_id : Nat) (profile : ChildProfile) :
    (generate_learning_path path_id profile).1.current_stage = 1 ∧
    (generate_learning_path path_id profile).1.total_stages = 5 ∧
    (generate_learning_path path_id profile).1.progress_percentage = 0 ∧
    (generate_learning_path path_id profile).2.length = 5 ∧
    (generate_learning_path path_id profile).2.map
      PathActivity.stage_number = [1, 2, 3, 4, 5] ∧
    (∀ a ∈ (generate_learning_path path_id profile).2,
      a.status = "pending" ∧ a.is_completed = false) ∧
    (generate_learning_path path_id profile).2.map
      PathActivity.activity_type =
      ["assessment", "exercise", "reading", "quiz", "creative"] ∧
    (generate_learning_path path_id profile).2.map PathActivity.title =
      ["Reading Assessment", "Vocabulary Building", "Guided Reading",
       "Comprehension Quiz", "Creative Response"] := by
  refine ⟨rfl, rfl, rfl, rfl, rfl, ?_, rfl, rfl⟩
  intro a ha
  simp [generate_learning_path] at ha
  rcases ha with h | h | h | h | h <;> subst h <;> exact ⟨rfl, rfl⟩

/-! ### Helper lemmas about the activity-table update -/

/-- `apply_status` never touches the primary key. -/
lemma apply_status_id (s : String) (a : PathActivity) :
    (apply_status s a).id = a.id := by
  unfold apply_status; split <;> rfl

/-- `apply_status` never touches the stage number. -/
lemma apply_status_stage (s : String) (a : PathActivity) :
    (apply_status s a).stage_number = a.stage_number := by
  unfold apply_status; split <;> rfl

/-- `apply_status` never touches the owning path reference. -/
lemma apply_status_lpid (s : String) (a : PathActivity) :
    (apply_status s a).learning_path_id = a.learning_path_id := by
  unfold apply_status; split <;> rfl

/-- Resolving the updated activity id in the rewritten table yields the
updated row, for any per-row update `g` that preserves ids. -/
lemma find?_map_update (g : PathActivity → PathActivity)
    (hid : ∀ a, (g a).id = a.id) (aid : Nat) :
    ∀ (l : List PathActivity) (act : PathActivity),
      l.find? (fun a => a.id == aid) = some act →
      (l.map (fun a => if a.id == aid then g a else a)).find?
        (fun a => a.id == aid) = some (g act)
  | [], act, h => by simp at h
  | x :: xs, act, h => by
    by_cases hx : x.id = aid
    · rw [List.find?_cons_of_pos _ (by simp [hx])] at h
      cases h
      rw [List.map_cons, if_pos (by simp [hx]),
        List.find?_cons_of_pos _ (by simp [hid, hx])]
    · rw [List.find?_cons_of_neg _ (by simp [hx])] at h
      rw [List.map_cons, if_neg (by simp [hx]),
        List.find?_cons_of_neg _ (by simp [hx])]
      exact find?_map_update g hid aid xs act h

/-- Rows other than the updated one survive the table rewrite. -/
lemma mem_map_update (l : List PathActivity) (aid : Nat)
    (g : PathActivity → PathActivity) (b : PathActivity)
    (hb : b ∈ l) (hid : b.id ≠ aid) :
    b ∈ l.map (fun a => if a.id == aid then g a else a) :=
  List.mem_map.2 ⟨b, hb, by simp [hid]⟩

/-- C2: completing the frontier activity advances `current_stage` by
exactly one when not yet at the last stage, and leaves it unchanged
when already at the last stage. -/
theorem C2_frontier_advance (db : DB) (aid : Nat) (act : PathActivity)
    (hfind : db.activities.find? (fun a => a.id == aid) = some act)
    (hstage : act.stage_number = db.path.current_stage) :
    (db.path.current_stage < db.path.total_stages →
      (update_path_activity db aid (some "completed")).1.path.current_stage =
        db.path.current_stage + 1) ∧
    (db.path.current_stage = db.path.total_stages →
      (update_path_activity db aid (some "completed")).1.path.current_stage =
        db.path.current_stage) := by
  constructor
  · intro hlt
    simp [update_path_activity, hfind, cascade, hstage, hlt]
    split <;> rfl
  · intro heq
    simp [update_path_activity, hfind, cascade, hstage, heq]
    split <;> first | rfl | exact heq

/-- Unfolding `update_path_activity` for a resolved activity and a
completed status. -/
lemma update_completed_eq (db : DB) (aid : Nat) (act : PathActivity)
    (hfind : db.activities.find? (fun a => a.id == aid) = some act) :
    update_path_activity db aid (some "completed") =
      ({ path := cascade db.path
            (db.activities.map (fun a =>
              if a.id == aid then apply_status "completed" a else a))
            act.stage_number,
         activities := db.activities.map (fun a =>
           if a.id == aid then apply_status "completed" a else a) }, 200) := by
  simp [update_path_activity, hfind]

/-- Unfolding `update_path_activity` for a resolved activity and a
valid non-completed status: only the activity table changes. -/
lemma update_noncompleted_eq (db : DB) (aid : Nat) (s : String)
    (act : PathActivity)
    (hfind : db.activities.find? (fun a => a.id == aid) = some act)
    (hs : s = "pending" ∨ s = "in-progress") :
    update_path_activity db aid (some s) =
      ({ db with activities := db.activities.map (fun a =>
          if a.id == aid then apply_status s a else a) }, 200) := by
  rcases hs with h | h <;> subst h <;> simp [update_path_activity, hfind]

/-- Unfolding `update_path_activity` for a status outside the valid
set: nothing changes and the request still succeeds with 200. -/
lemma update_invalid_eq (db : DB) (aid : Nat) (s : String)
    (act : PathActivity)
    (hfind : db.activities.find? (fun a => a.id == aid) = some act)
    (hs : s ∉ (["pending", "in-progress", "completed"] : List String)) :
    update_path_activity db aid (some s) = (db, 200) := by
  simp [update_path_activity, hfind, hs]

/-- A small concrete profile used to instantiate the theorems. -/
def wProfile : ChildProfile :=
  { id := 7, name := "Ada", age := 6, reading_level := "beginner" }

/-- A concrete mid-journey state: stages 1 and 2 both completed, the
frontier already advanced to stage 2 by completing stage 2 first (no
cascade) and then stage 1 (cascade).  The stage-2 activity is a
completed activity sitting at the frontier. -/
def wMidDB : DB :=
  { path := { id := 1, child_profile_id := 7, title := "T",
              description := "D", current_stage := 2, total_stages := 5,
              progress_percentage := 40 },
    activities :=
      [ { id := 1, learning_path_id := 1, title := "A", description := "a",
          activity_type := "assessment", stage_number := 1,
          status := "completed", is_completed := true },
        { id := 2, learning_path_id := 1, title := "B", description := "b",
          activity_type := "exercise", stage_number := 2,
          status := "completed", is_completed := true },
        { id := 3, learning_path_id := 1, title := "C", description := "c",
          activity_type := "reading", stage_number := 3,
          status := "pending", is_completed := false } ] }

/-- Witness for C2: completing the stage-1 activity of a fresh path
moves the frontier from stage 1 to stage 2. -/
theorem C2_frontier_advance_witness :
    (update_path_activity (generatedDB 1 wProfile) 1
      (some "completed")).1.path.current_stage = 2 :=
  (C2_frontier_advance (generatedDB 1 wProfile) 1 _ rfl rfl).1 (by decide)

/-- C5: re-applying a completed status to an already completed activity
that still sits at the frontier, below the last stage, re-triggers the
cascade and advances the frontier again. -/
theorem C5_recomplete_advances (db : DB) (aid : Nat) (act : PathActivity)
    (hfind : db.activities.find? (fun a => a.id == aid) = some act)
    (hdone : act.status = "completed")
    (hstage : act.stage_number = db.path.current_stage)
    (hlt : db.path.current_stage < db.path.total_stages) :
    (update_path_activity db aid (some "completed")).1.path.current_stage =
      db.path.current_stage + 1 := by
  simp [update_path_activity, hfind, cascade, hstage, hlt]
  split <;> rfl

/-- Witness for C5: in the concrete mid-journey state the stage-2
activity is already completed and at the frontier; re-completing it
advances the frontier to stage 3. -/
theorem C5_recomplete_advances_witness :
    (update_path_activity wMidDB 2 (some "completed")).1.path.current_stage = 3 :=
  C5_recomplete_advances wMidDB 2 _ rfl rfl rfl (by decide)

/-- C7: a pending or in-progress request, or a completed request on a
non-frontier activity, mutates only that activity: every path field is
unchanged and all other activity rows survive untouched. -/
theorem C7_non_cascading_frame (db : DB) (aid : Nat) (s : String)
    (act : PathActivity)
    (hfind : db.activities.find? (fun a => a.id == aid) = some act)
    (hcase : s = "pending" ∨ s = "in-progress" ∨
      (s = "completed" ∧ act.stage_number ≠ db.path.current_stage)) :
    (update_path_activity db aid (some s)).1.path = db.path ∧
    ∀ b ∈ db.activities, b.id ≠ aid →
      b ∈ (update_path_activity db aid (some s)).1.activities := by
  rcases hcase with h | h | ⟨h, hne⟩
  · rw [update_noncompleted_eq db aid s act hfind (Or.inl h)]
    exact ⟨rfl, fun b hb hid => mem_map_update _ _ _ _ hb hid⟩
  · rw [update_noncompleted_eq db aid s act hfind (Or.inr h)]
    exact ⟨rfl, fun b hb hid => mem_map_update _ _ _ _ hb hid⟩
  · subst h
    rw [update_completed_eq db aid act hfind]
    refine ⟨?_, fun b hb hid => mem_map_update _ _ _ _ hb hid⟩
    simp [cascade]
    intro h
    exact absurd h.symm hne

/-- Witness for C7: marking the stage-2 activity of a fresh path as
in-progress leaves the path row untouched. -/
theorem C7_non_cascading_frame_witness :
    (update_path_activity (generatedDB 1 wProfile) 2
      (some "in-progress")).1.path = (generatedDB 1 wProfile).path :=
  (C7_non_cascading_frame (generatedDB 1 wProfile) 2 "in-progress" _ rfl
    (Or.inr (Or.inl rfl))).1

/-- C8: a valid requested status is written to the activity; a
completed request also raises `is_completed`, and any other valid
status leaves `is_completed` as it was, so the flag is never cleared
once raised. -/
theorem C8_status_written_flag_sticky (db : DB) (aid : Nat) (s : String)
    (act : PathActivity)
    (hfind : db.activities.find? (fun a => a.id == aid) = some act)
    (hvalid : s ∈ (["pending", "in-progress", "completed"] : List String)) :
    ∃ act2,
      (update_path_activity db aid (some s)).1.activities.find?
        (fun a => a.id == aid) = some act2 ∧
      act2.status = s ∧
      (s = "completed" → act2.is_completed = true) ∧
      (s ≠ "completed" → act2.is_completed = act.is_completed) := by
  refine ⟨apply_status s act, ?_, ?_, ?_, ?_⟩
  · have hmap := find?_map_update (apply_status s) (apply_status_id s)
      aid db.activities act hfind
    simp only [List.mem_cons, List.not_mem_nil, or_false] at hvalid
    rcases hvalid with h | h | h <;> subst h
    · rw [update_noncompleted_eq db aid _ act hfind (Or.inl rfl)]
      exact hmap
    · rw [update_noncompleted_eq db aid _ act hfind (Or.inr rfl)]
      exact hmap
    · rw [update_completed_eq db aid act hfind]
      exact hmap
  · unfold apply_status; split <;> rfl
  · intro h; subst h; simp [apply_status]
  · intro h; simp [apply_status, h]

/-- Witness for C8: requesting pending on the already-completed
stage-1 activity of the mid-journey state rewrites the status but
keeps `is_completed` raised. -/
theorem C8_status_written_flag_sticky_witness :
    ∃ act2,
      (update_path_activity wMidDB 1 (some "pending")).1.activities.find?
        (fun a => a.id == 1) = some act2 ∧
      act2.status = "pending" ∧
      ("pending" = "completed" → act2.is_completed = true) ∧
      ("pending" ≠ "completed" → act2.is_completed = true) :=
  C8_status_written_flag_sticky wMidDB 1 "pending" _ rfl
    (by simp)

/-- `apply_status` never lowers the completion flag. -/
lemma apply_status_keeps_completed (s : String) (a : PathActivity)
    (h : a.is_completed = true) : (apply_status s a).is_completed = true := by
  unfold apply_status
  split
  · rfl
  · exact h

/-- The table rewrite performed by a status update preserves the
per-path activity count. -/
lemma filter_total_map_update (l : List PathActivity) (aid pid : Nat)
    (s : String) :
    ((l.map (fun a => if a.id == aid then apply_status s a else a)).filter
      (fun a => a.learning_path_id == pid)).length =
    (l.filter (fun a => a.learning_path_id == pid)).length := by
  induction l with
  | nil => rfl
  | cons x xs ih =>
    simp only [List.map_cons, List.filter_cons]
    have hhead :
        ((if x.id == aid then apply_status s x else x).learning_path_id == pid)
          = (x.learning_path_id == pid) := by
      split <;> simp [apply_status_lpid]
    rw [hhead]
    split
    · simp only [List.length_cons]
      exact congrArg Nat.succ ih
    · exact ih

/-- The table rewrite performed by a status update never decreases the
per-path completed-activity count. -/
lemma filter_completed_le_map_update (l : List PathActivity) (aid pid : Nat)
    (s : String) :
    (l.filter (fun a => a.learning_path_id == pid && a.is_completed)).length ≤
    ((l.map (fun a => if a.id == aid then apply_status s a else a)).filter
      (fun a => a.learning_path_id == pid && a.is_completed)).length := by
  induction l with
  | nil => exact Nat.le_refl _
  | cons x xs ih =>
    simp only [List.map_cons, List.filter_cons]
    by_cases hx : (x.learning_path_id == pid && x.is_completed) = true
    · have h12 := hx
      rw [Bool.and_eq_true] at h12
      obtain ⟨h1, h2⟩ := h12
      have hmx :
          ((if x.id == aid then apply_status s x else x).learning_path_id == pid
            && (if x.id == aid then apply_status s x else x).is_completed) = true := by
        split
        · simp [apply_status_lpid, apply_status_keeps_completed s x h2, h1]
        · exact hx
      rw [if_pos hx, if_pos hmx]
      simp only [List.length_cons]
      exact Nat.succ_le_succ ih
    · rw [if_neg hx]
      refine Nat.le_trans ih ?_
      by_cases hmx : ((if x.id == aid then apply_status s x else x).learning_path_id == pid
          && (if x.id == aid then apply_status s x else x).is_completed) = true
      · rw [if_pos hmx]
        simp only [List.length_cons]
        exact Nat.le_succ _
      · rw [if_neg hmx]

/-- The cascade never changes the path id. -/
lemma cascade_id (p : LearningPath) (acts : List PathActivity) (st : Nat) :
    (cascade p acts st).id = p.id := by
  simp only [cascade]
  repeat' split
  all_goals rfl

/-- The cascade never changes the stage count. -/
lemma cascade_total_stages (p : LearningPath) (acts : List PathActivity)
    (st : Nat) : (cascade p acts st).total_stages = p.total_stages := by
  simp only [cascade]
  repeat' split
  all_goals rfl

/-- Off the frontier the cascade is the identity. -/
lemma cascade_not_frontier (p : LearningPath) (acts : List PathActivity)
    (st : Nat) (h : p.current_stage ≠ st) : cascade p acts st = p := by
  unfold cascade
  rw [if_neg (by simp [h])]

/-- On the frontier with a positive activity count the cascade writes
the recomputed percentage. -/
lemma cascade_pct_pos (p : LearningPath) (acts : List PathActivity)
    (st : Nat) (hst : p.current_stage = st)
    (ht : 0 < (acts.filter (fun a => a.learning_path_id == p.id)).length) :
    (cascade p acts st).progress_percentage =
      (acts.filter (fun a =>
        a.learning_path_id == p.id && a.is_completed)).length * 100 /
      (acts.filter (fun a => a.learning_path_id == p.id)).length := by
  simp only [cascade]
  rw [if_pos (by simp [hst]), if_pos ht]

/-- On the frontier with an empty activity table the cascade leaves
the percentage untouched. -/
lemma cascade_pct_zero (p : LearningPath) (acts : List PathActivity)
    (st : Nat) (hst : p.current_stage = st)
    (ht : (acts.filter (fun a => a.learning_path_id == p.id)).length = 0) :
    (cascade p acts st).progress_percentage = p.progress_percentage := by
  simp only [cascade]
  rw [if_pos (by simp [hst]), if_neg (by simp [ht])]
  split <;> rfl

/-- The cascade either keeps the frontier or advances it by one while
strictly below the stage count. -/
lemma cascade_current_stage (p : LearningPath) (acts : List PathActivity)
    (st : Nat) :
    (cascade p acts st).current_stage = p.current_stage ∨
    ((cascade p acts st).current_stage = p.current_stage + 1 ∧
      p.current_stage < p.total_stages) := by
  simp only [cascade]
  repeat' split
  all_goals first
    | exact Or.inl rfl
    | exact Or.inr ⟨rfl, by assumption⟩

/-- C3: a triggered cascade recomputes the percentage as the floor of
100 * completed / total when the path has activities, leaves it alone
when it has none, and completing stage 1 of a fresh path yields 20. -/
theorem C3_cascade_progress (db : DB) (aid : Nat) (act : PathActivity)
    (hfind : db.activities.find? (fun a => a.id == aid) = some act)
    (hstage : act.stage_number = db.path.current_stage) :
    (0 < totalCount db →
      (update_path_activity db aid (some "completed")).1.path.progress_percentage =
        completedCount (update_path_activity db aid (some "completed")).1 * 100 /
          totalCount db) ∧
    (totalCount db = 0 →
      (update_path_activity db aid (some "completed")).1.path.progress_percentage =
        db.path.progress_percentage) ∧
    (∀ (pid : Nat) (profile : ChildProfile),
      (update_path_activity (generatedDB pid profile) 1
        (some "completed")).1.path.progress_percentage = 20) := by
  refine ⟨?_, ?_, ?_⟩
  · intro h
    rw [update_completed_eq db aid act hfind]
    simp only [completedCount, totalCount, cascade_id] at h ⊢
    have ht : 0 < ((db.activities.map (fun a =>
        if a.id == aid then apply_status "completed" a else a)).filter
        (fun a => a.learning_path_id == db.path.id)).length := by
      rw [filter_total_map_update]
      exact h
    rw [cascade_pct_pos db.path _ act.stage_number hstage.symm ht]
    rw [filter_total_map_update]
  · intro h
    rw [update_completed_eq db aid act hfind]
    simp only [totalCount] at h
    exact cascade_pct_zero db.path _ act.stage_number hstage.symm
      (by rw [filter_total_map_update]; exact h)
  · intro pid profile
    simp [generatedDB, generate_learning_path, update_path_activity,
      apply_status, cascade]

/-- Witness for C3: the stage-1 completion scenario at a concrete
profile. -/
theorem C3_cascade_progress_witness :
    (update_path_activity (generatedDB 1 wProfile) 1
      (some "completed")).1.path.progress_percentage = 20 :=
  (C3_cascade_progress (generatedDB 1 wProfile) 1 _ rfl rfl).2.2 1 wProfile

/-- Counterexample for C4: requesting the out-of-set status
"archived" on a fresh path is not rejected with an invalid-input
error: the endpoint answers 200 (success, the same code as a valid
update) while indeed mutating nothing. -/
theorem C4_counterexample :
    update_path_activity (generatedDB 1 wProfile) 1 (some "archived") =
      (generatedDB 1 wProfile, 200) := by
  rfl

/-- C4 amended: a requested status outside the valid set performs no
mutation, but instead of signalling an invalid-input error the
endpoint silently answers the same 200 success as a valid update. -/
theorem C4_invalid_status_silent (db : DB) (aid : Nat) (s : String)
    (act : PathActivity)
    (hfind : db.activities.find? (fun a => a.id == aid) = some act)
    (hs : s ∉ (["pending", "in-progress", "completed"] : List String)) :
    update_path_activity db aid (some s) = (db, 200) :=
  update_invalid_eq db aid s act hfind hs

/-- Witness for the amended C4 at a concrete invalid status. -/
theorem C4_invalid_status_silent_witness :
    update_path_activity (generatedDB 1 wProfile) 2 (some "bogus") =
      (generatedDB 1 wProfile, 200) :=
  C4_invalid_status_silent (generatedDB 1 wProfile) 2 "bogus" _ rfl (by simp)

/-- Every status-update request leaves the store in one of three
shapes: untouched, activity table rewritten only, or activity table
rewritten together with a cascade on the path. -/
lemma update_shape (db : DB) (aid : Nat) (data : Option String) :
    (update_path_activity db aid data).1 = db ∨
    ∃ s act, db.activities.find? (fun a => a.id == aid) = some act ∧
      data = some s ∧
      ((update_path_activity db aid data).1 =
          { db with activities := db.activities.map (fun a =>
              if a.id == aid then apply_status s a else a) } ∨
        (update_path_activity db aid data).1 =
          { path := cascade db.path (db.activities.map (fun a =>
              if a.id == aid then apply_status s a else a)) act.stage_number,
            activities := db.activities.map (fun a =>
              if a.id == aid then apply_status s a else a) }) := by
  unfold update_path_activity
  split
  · exact Or.inl rfl
  · rename_i act hf
    split
    · exact Or.inl rfl
    · rename_i s
      split
      · split
        · exact Or.inr ⟨s, act, hf, rfl, Or.inr rfl⟩
        · exact Or.inr ⟨s, act, hf, rfl, Or.inl rfl⟩
      · exact Or.inl rfl

/-- The per-path activity count is invariant under every request. -/
lemma totalCount_update (db : DB) (aid : Nat) (data : Option String) :
    totalCount (update_path_activity db aid data).1 = totalCount db := by
  rcases update_shape db aid data with h | ⟨s, act, _, _, h | h⟩
  · rw [h]
  · simp only [h, totalCount]
    exact filter_total_map_update db.activities aid db.path.id s
  · simp only [h, totalCount, cascade_id]
    exact filter_total_map_update db.activities aid db.path.id s

/-- The per-path completed count never decreases under a request. -/
lemma completedCount_le_update (db : DB) (aid : Nat) (data : Option String) :
    completedCount db ≤ completedCount (update_path_activity db aid data).1 := by
  rcases update_shape db aid data with h | ⟨s, act, _, _, h | h⟩
  · rw [h]
  · simp only [h, completedCount]
    exact filter_completed_le_map_update db.activities aid db.path.id s
  · simp only [h, completedCount, cascade_id]
    exact filter_completed_le_map_update db.activities aid db.path.id s

/-- After any request the stored percentage is either the old one or
the freshly recomputed quotient over a positive activity count. -/
lemma update_pct_cases (db : DB) (aid : Nat) (data : Option String) :
    (update_path_activity db aid data).1.path.progress_percentage =
        db.path.progress_percentage ∨
      ((update_path_activity db aid data).1.path.progress_percentage =
          completedCount (update_path_activity db aid data).1 * 100 /
            totalCount db ∧
        0 < totalCount db) := by
  rcases update_shape db aid data with h | ⟨s, act, _, _, h | h⟩
  · rw [h]
    exact Or.inl rfl
  · simp only [h]
    exact Or.inl trivial
  · by_cases hfr : db.path.current_stage = act.stage_number
    · by_cases ht : 0 < ((db.activities.map (fun a =>
          if a.id == aid then apply_status s a else a)).filter
          (fun a => a.learning_path_id == db.path.id)).length
      · right
        constructor
        · simp only [h, completedCount, totalCount, cascade_id]
          rw [cascade_pct_pos db.path _ act.stage_number hfr ht]
          rw [filter_total_map_update]
        · simp only [totalCount]
          rw [← filter_total_map_update db.activities aid db.path.id s]
          exact ht
      · left
        simp only [h]
        exact cascade_pct_zero db.path _ act.stage_number hfr
          (Nat.eq_zero_of_not_pos ht)
    · left
      simp only [h]
      rw [cascade_not_frontier db.path _ act.stage_number hfr]

/-- Completed activities of a path are a subset of its activities. -/
lemma completedCount_le_totalCount (db : DB) :
    completedCount db ≤ totalCount db := by
  unfold completedCount totalCount
  induction db.activities with
  | nil => exact Nat.le_refl 0
  | cons x xs ih =>
    simp only [List.filter_cons]
    by_cases h1 : (x.learning_path_id == db.path.id && x.is_completed) = true
    · have h12 := h1
      rw [Bool.and_eq_true] at h12
      rw [if_pos h1, if_pos h12.1]
      simp only [List.length_cons]
      exact Nat.succ_le_succ ih
    · rw [if_neg h1]
      by_cases h2 : (x.learning_path_id == db.path.id) = true
      · rw [if_pos h2]
        simp only [List.length_cons]
        exact Nat.le_trans ih (Nat.le_succ _)
      · rw [if_neg h2]
        exact ih

/-- The recomputed quotient never exceeds 100. -/
lemma pct_formula_le_100 (c t : Nat) (hc : c ≤ t) (ht : 0 < t) :
    c * 100 / t ≤ 100 :=
  calc c * 100 / t ≤ t * 100 / t :=
        Nat.div_le_div_right (Nat.mul_le_mul_right _ hc)
    _ = 100 := Nat.mul_div_cancel_left 100 ht

/-- Invariant carried along update sequences: the stored percentage is
at most the quotient a recomputation would store now, and the path has
at least one activity. -/
def PctInv (db : DB) : Prop :=
  db.path.progress_percentage ≤ completedCount db * 100 / totalCount db ∧
  0 < totalCount db

/-- A freshly generated path satisfies the percentage invariant. -/
lemma pctInv_generated (pid : Nat) (profile : ChildProfile) :
    PctInv (generatedDB pid profile) := by
  constructor
  · exact Nat.zero_le _
  · simp [totalCount, generatedDB, generate_learning_path]

/-- One request preserves the percentage invariant and never lowers
the stored percentage. -/
lemma pctInv_update (db : DB) (aid : Nat) (data : Option String)
    (hInv : PctInv db) :
    PctInv (update_path_activity db aid data).1 ∧
    db.path.progress_percentage ≤
      (update_path_activity db aid data).1.path.progress_percentage := by
  obtain ⟨hle, hpos⟩ := hInv
  have hcc := completedCount_le_update db aid data
  have htc := totalCount_update db aid data
  have hmono : completedCount db * 100 / totalCount db ≤
      completedCount (update_path_activity db aid data).1 * 100 /
        totalCount db :=
    Nat.div_le_div_right (Nat.mul_le_mul_right _ hcc)
  rcases update_pct_cases db aid data with h | ⟨h, _⟩
  · refine ⟨⟨?_, ?_⟩, ?_⟩
    · rw [h, htc]
      exact Nat.le_trans hle hmono
    · rw [htc]
      exact hpos
    · rw [h]
  · refine ⟨⟨?_, ?_⟩, ?_⟩
    · rw [h, htc]
    · rw [htc]
      exact hpos
    · rw [h]
      exact Nat.le_trans hle hmono

/-- The percentage invariant survives any request sequence. -/
lemma pctInv_run (db : DB) (hInv : PctInv db)
    (ops : List (Nat × Option String)) : PctInv (runUpdates db ops) := by
  induction ops generalizing db with
  | nil => exact hInv
  | cons op rest ih => exact ih _ (pctInv_update db op.1 op.2 hInv).1

/-- C9: generation establishes `1 <= current_stage <= total_stages`
(with the values 1 and 5), and every status-update request preserves
the bound. -/
theorem C9_stage_bounds :
    (∀ (pid : Nat) (profile : ChildProfile),
      1 ≤ (generatedDB pid profile).path.current_stage ∧
      (generatedDB pid profile).path.current_stage ≤
        (generatedDB pid profile).path.total_stages) ∧
    (∀ (db : DB) (aid : Nat) (data : Option String),
      1 ≤ db.path.current_stage →
      db.path.current_stage ≤ db.path.total_stages →
      1 ≤ (update_path_activity db aid data).1.path.current_stage ∧
      (update_path_activity db aid data).1.path.current_stage ≤
        (update_path_activity db aid data).1.path.total_stages) := by
  constructor
  · intro pid profile
    exact ⟨Nat.le_refl 1, show (1 : Nat) ≤ 5 by decide⟩
  · intro db aid data h1 h2
    rcases update_shape db aid data with h | ⟨s, act, _, _, h | h⟩
    · rw [h]
      exact ⟨h1, h2⟩
    · simp only [h]
      exact ⟨h1, h2⟩
    · simp only [h]
      rcases cascade_current_stage db.path (db.activities.map (fun a =>
          if a.id == aid then apply_status s a else a)) act.stage_number
        with hc | ⟨hc, hlt⟩
      · rw [hc, cascade_total_stages]
        exact ⟨h1, h2⟩
      · rw [hc, cascade_total_stages]
        exact ⟨Nat.le_trans h1 (Nat.le_succ _), hlt⟩

/-- Witness for C9 at a concrete state and request. -/
theorem C9_stage_bounds_witness :
    1 ≤ (update_path_activity (generatedDB 1 wProfile) 1
        (some "completed")).1.path.current_stage ∧
    (update_path_activity (generatedDB 1 wProfile) 1
        (some "completed")).1.path.current_stage ≤
      (update_path_activity (generatedDB 1 wProfile) 1
        (some "completed")).1.path.total_stages :=
  C9_stage_bounds.2 (generatedDB 1 wProfile) 1 (some "completed")
    (by decide) (by decide)

/-- Counterexample for C6: completing the non-frontier stage-3
activity of a fresh path raises the completed count to 1 of 5 but
leaves the stored percentage at 0 instead of the recomputed 20, so the
percentage does not track the completion ratio after every operation. -/
theorem C6_counterexample :
    (update_path_activity (generatedDB 1 wProfile) 3
        (some "completed")).1.path.progress_percentage = 0 ∧
    completedCount (update_path_activity (generatedDB 1 wProfile) 3
        (some "completed")).1 = 1 ∧
    totalCount (update_path_activity (generatedDB 1 wProfile) 3
        (some "completed")).1 = 5 ∧
    (update_path_activity (generatedDB 1 wProfile) 3
        (some "completed")).1.path.progress_percentage ≠
      completedCount (update_path_activity (generatedDB 1 wProfile) 3
          (some "completed")).1 * 100 /
        totalCount (update_path_activity (generatedDB 1 wProfile) 3
            (some "completed")).1 := by
  refine ⟨rfl, rfl, rfl, ?_⟩
  decide

/-- C6 amended: the stored percentage equals the floor of
100 * completed / total right after generation and right after every
cascading recomputation (frontier completion with a positive activity
count); other requests leave it untouched, possibly stale. -/
theorem C6_pct_tracks_recompute_points :
    (∀ (pid : Nat) (profile : ChildProfile),
      (generatedDB pid profile).path.progress_percentage =
        completedCount (generatedDB pid profile) * 100 /
          totalCount (generatedDB pid profile)) ∧
    (∀ (db : DB) (aid : Nat) (act : PathActivity),
      db.activities.find? (fun a => a.id == aid) = some act →
      act.stage_number = db.path.current_stage →
      0 < totalCount db →
      (update_path_activity db aid (some "completed")).1.path.progress_percentage =
        completedCount (update_path_activity db aid (some "completed")).1 * 100 /
          totalCount (update_path_activity db aid (some "completed")).1) := by
  constructor
  · intro pid profile
    simp [generatedDB, generate_learning_path, completedCount, totalCount]
  · intro db aid act hfind hstage ht
    rw [update_completed_eq db aid act hfind]
    simp only [completedCount, totalCount, cascade_id]
    have ht2 : 0 < ((db.activities.map (fun a =>
        if a.id == aid then apply_status "completed" a else a)).filter
        (fun a => a.learning_path_id == db.path.id)).length := by
      rw [filter_total_map_update]
      simpa [totalCount] using ht
    rw [cascade_pct_pos db.path _ act.stage_number hstage.symm ht2]

/-- Witness for the amended C6 at a concrete cascading completion. -/
theorem C6_pct_tracks_recompute_points_witness :
    (update_path_activity (generatedDB 1 wProfile) 1
        (some "completed")).1.path.progress_percentage =
      completedCount (update_path_activity (generatedDB 1 wProfile) 1
          (some "completed")).1 * 100 /
        totalCount (update_path_activity (generatedDB 1 wProfile) 1
            (some "completed")).1 :=
  C6_pct_tracks_recompute_points.2 (generatedDB 1 wProfile) 1 _ rfl rfl
    (by decide)

/-- C10: starting from a generated path, the stored percentage stays
within 0..100 (it is a natural number, so the lower bound is
automatic) and never decreases across any sequence of status-update
requests. -/
theorem C10_progress_monotone_bounded (pid : Nat) (profile : ChildProfile)
    (ops : List (Nat × Option String)) (op : Nat × Option String) :
    (runUpdates (generatedDB pid profile) ops).path.progress_percentage ≤ 100 ∧
    (runUpdates (generatedDB pid profile) ops).path.progress_percentage ≤
      (runUpdates (generatedDB pid profile)
        (ops ++ [op])).path.progress_percentage := by
  have hInv := pctInv_run (generatedDB pid profile)
    (pctInv_generated pid profile) ops
  constructor
  · exact Nat.le_trans hInv.1
      (pct_formula_le_100 _ _ (completedCount_le_totalCount _) hInv.2)
  · have hstep := (pctInv_update (runUpdates (generatedDB pid profile) ops)
      op.1 op.2 hInv).2
    have hsplit : runUpdates (generatedDB pid profile) (ops ++ [op]) =
        (update_path_activity (runUpdates (generatedDB pid profile) ops)
          op.1 op.2).1 := by
      simp [runUpdates, List.foldl_append]
    rw [hsplit]
    exact hstep
